import Mathlib

/-!
Verification of the `aoc-2021` tooling repository (three Python scripts:
`fetch.py`, `setup.py`, `run.py`) via a shallow embedding in Lean 4.

The scripts are process-orchestration glue: they parse arguments, run
subprocesses, and write files.  We embed them as pure functions that
return explicit *traces* of the externally visible actions they perform
(stderr messages, `sys.exit` codes, directory creation, file writes,
subprocess invocations, calls to `fetch`), together with any in-memory
results (the benchmark `times` mapping).  Machine-level details that the
scripts do not depend on (file contents of generated boilerplate, stdout
progress lines) are noted where they are abstracted.

The boilerplate *programs written by* `setup.py` are embedded separately:
each generated `main` is translated into a Lean function from its argv to
the list of observable events (printed "Part n" lines and stub calls).
-/

namespace Aoc

/-! ## Generated boilerplate programs (from `setup.py`)

Each `setup_*` routine writes a fixed source file.  The functions below
embed the control flow of those *generated* programs.  Conventions for
the argument vector follow each runtime:
* Python `sys.argv`: element 0 is the script name, element 1 the first
  real argument (`python3 main.py 1` gives `["main.py", "1"]`).
* Go `os.Args`: element 0 is the program name.
* Node `process.argv`: element 0 is the node binary, element 1 the
  script path, element 2 the first real argument.
* Rust `std::env::args()`: element 0 is the program name; the generated
  program reads `args().nth(1)`.
-/

/-- An observable event of a generated boilerplate program: a printed
line, or a call of one of the two stub functions. -/
inductive BoilerEvent where
  | printLine (s : String)
  | callPart (n : Nat)
deriving DecidableEq

/-- The `__main__` block of the Python file written by `setup_py`
(src/setup.py lines 88-92).  Note the generated text places the calls
`part1()` / `part2()` at the *same* indentation as the inner `if`
statements, so both stub calls are unconditional. -/
def pyGenMain (argv : List String) : List BoilerEvent :=
  (if argv.length < 2 ∨ argv.get? 1 = some "1" then [.printLine "Part 1"] else [])
    ++ [.callPart 1]
    ++ (if argv.length < 2 ∨ argv.get? 1 = some "2" then [.printLine "Part 2"] else [])
    ++ [.callPart 2]

/-- The `main` function of the Go file written by `setup_go`
(src/setup.py lines 125-134). -/
def goGenMain (args : List String) : List BoilerEvent :=
  (if args.length < 2 ∨ args.get? 1 = some "1" then [.printLine "Part 1", .callPart 1] else [])
    ++ (if args.length < 2 ∨ args.get? 1 = some "2" then [.printLine "Part 2", .callPart 2] else [])

/-- The top level of the JavaScript file written by `setup_js`
(src/setup.py lines 165-178); `setup_ts` writes the same program text to
`index.ts`.  The generated code tests `process.argv.length < 2` and
`process.argv[1]`, where under node `process.argv[1]` is the script
path. -/
def jsGenMain (processArgv : List String) : List BoilerEvent :=
  (if processArgv.length < 2 ∨ processArgv.get? 1 = some "1" then
      [.printLine "Part 1", .callPart 1] else [])
    ++ (if processArgv.length < 2 ∨ processArgv.get? 1 = some "2" then
      [.printLine "Part 2", .callPart 2] else [])

/-- The `main` function of the Rust file written by `setup_rs`
(src/setup.py lines 229-243). -/
def rsGenMain (args : List String) : List BoilerEvent :=
  let pq : Bool × Bool :=
    match args.get? 1 with
    | some which => (which == "1", which == "2")
    | none => (true, true)
  (if pq.1 then [.printLine "Part 1", .callPart 1] else [])
    ++ (if pq.2 then [.printLine "Part 2", .callPart 2] else [])

/-! ## Shared action trace -/

/-- An externally visible action performed by one of the scripts. -/
inductive Act where
  | stderr (msg : String)
  | exitCode (n : Nat)
  | mkdirP (path : String)
  | subproc (argv : List String)
  | writeFile (path : String)
  | chmodExec (path : String)
  | fetchCall (day : Nat)
  | runnerInvoke (idx : Nat)
deriving DecidableEq

/-- `true` exactly on `Act.fetchCall` actions. -/
def isFetchAct : Act → Bool
  | .fetchCall _ => true
  | _ => false

/-- Python `f"{day:02d}"` for a nonnegative day: decimal digits, left
padded with `0` to width 2. -/
def pyFormat02d (n : Nat) : String :=
  if n < 10 then "0" ++ toString n else toString n

/-- The numeric value of a nonempty all-digit decimal string (used to
state that a zero-padded field denotes the intended number). -/
def parseDecimal (s : String) : Option Nat :=
  if !s.data.isEmpty && s.data.all Char.isDigit then
    some (s.data.foldl (fun a c => 10 * a + (c.toNat - 48)) 0)
  else
    none

/-! ## Fetcher (`fetch.py`) -/

/-- A Python exception terminating `fetch`. -/
inductive FetchErr where
  | fileNotFound
  | calledProcessError (code : Nat)
deriving DecidableEq

/-- Result of a `fetch` invocation: the actions performed, and the
exception (if any) that terminated it. -/
structure FetchOut where
  actions : List Act
  err : Option FetchErr
deriving DecidableEq

/-- Python `str.strip("\n")`: remove leading and trailing newline
characters (src/fetch.py line 37). -/
def stripNewlines (s : String) : String :=
  String.mk (((s.data.dropWhile fun c => c == '\n').reverse.dropWhile fun c => c == '\n').reverse)

/-- The output path of the fetcher, `inputs/day{day:02d}.txt`
(src/fetch.py line 47; the script resolves it to an absolute path, which
we keep relative). -/
def inputPath (day : Nat) : String :=
  "inputs/day" ++ pyFormat02d day ++ ".txt"

/-- The exact argument vector passed to `curl` (src/fetch.py lines
40-49). -/
def curlArgv (day : Nat) (cookie : String) : List String :=
  ["curl",
   "https://adventofcode.com/2021/day/" ++ toString day ++ "/input",
   "-H",
   "Cookie: session=" ++ cookie,
   "-o",
   inputPath day,
   "-s"]

/-- Modelled from curl's documented exit-status behaviour, which the
script relies on through `check=True`: if the transport fails (DNS,
connection, ...) curl exits nonzero (e.g. 6); an HTTP error *response*
makes curl exit 22 only when `--fail`/`-f` was passed, and otherwise
curl exits 0. -/
def curlExit (argv : List String) (transportOk httpOk : Bool) : Nat :=
  if !transportOk then 6
  else if ("--fail" ∈ argv ∨ "-f" ∈ argv) ∧ !httpOk then 22
  else 0

/-- Modelled from curl's documented behaviour: with `-o`, the response
body (including an HTTP error page, unless `--fail` was passed) is
written to the output file whenever the transport succeeds. -/
def curlWritesOutput (argv : List String) (transportOk httpOk : Bool) : Bool :=
  transportOk && (httpOk || !(decide ("--fail" ∈ argv) || decide ("-f" ∈ argv)))

/-- The part of `fetch` after the cookie has been resolved (src/fetch.py
lines 38-51): create `inputs`, run curl; `check=True` raises
`CalledProcessError` on a nonzero curl exit. -/
def fetchWith (day : Nat) (cookie : String) (transportOk httpOk : Bool) : FetchOut :=
  let argv := curlArgv day cookie
  let ex := curlExit argv transportOk httpOk
  { actions := [Act.mkdirP "inputs", Act.subproc argv]
      ++ (if curlWritesOutput argv transportOk httpOk then [Act.writeFile (inputPath day)] else []),
    err := if ex = 0 then none else some (.calledProcessError ex) }

/-- `fetch(day, cookie)` (src/fetch.py lines 30-51).  `authTxt` is the
content of `auth.txt` if that file exists; opening a missing `auth.txt`
raises `FileNotFoundError` before anything else happens. -/
def fetch (day : Nat) (cookie : Option String) (authTxt : Option String)
    (transportOk httpOk : Bool) : FetchOut :=
  match cookie, authTxt with
  | none, none => { actions := [], err := some .fileNotFound }
  | none, some a => fetchWith day (stripNewlines a) transportOk httpOk
  | some c, _ => fetchWith day c transportOk httpOk

/-! ## Scaffolder (`setup.py`) -/

/-- The five allowed language suffixes (src/setup.py line 19). -/
def SUFFIXES : List String := ["go", "js", "py", "rs", "ts"]

/-- Long-form language names mapped to suffixes (src/setup.py lines
22-28).  This table is defined by the script but never consulted by
`parse_args`. -/
def LANG_SUFFIXES : List (String × String) :=
  [("Rust", "rs"), ("Python", "py"), ("Go", "go"), ("JavaScript", "js"), ("TypeScript", "ts")]

/-- Suffixes mapped to long-form names (src/setup.py lines 31-37). -/
def SUFFIX_LANGS : List (String × String) :=
  [("rs", "Rust"), ("py", "Python"), ("go", "Go"), ("js", "JavaScript"), ("ts", "TypeScript")]

/-- Association-list lookup, modelling Python `dict` access (first
matching key). -/
def getA {α : Type} : List (String × α) → String → Option α
  | [], _ => none
  | (k₁, v₁) :: r, k => if k₁ = k then some v₁ else getA r k

/-- Association-list update, modelling Python `dict` assignment
(overwrite in place, or append a new key). -/
def setA {α : Type} : List (String × α) → String → α → List (String × α)
  | [], k, v => [(k, v)]
  | (k₁, v₁) :: r, k, v => if k₁ = k then (k, v) :: r else (k₁, v₁) :: setA r k v

deriving instance DecidableEq for Except

/-- Python `str.lower` (ASCII model). -/
def pyLower (s : String) : String :=
  String.mk (s.data.map Char.toLower)

/-- The handling of the positional `lang` argument by the scaffolder's
`parse_args` (src/setup.py lines 56-61): the value is lowercased
(`type=str.lower`) and must be one of `SUFFIXES` (`choices=SUFFIXES`);
otherwise argparse prints a usage error and exits with code 2. -/
def parseLang (s : String) : Except Nat String :=
  let t := pyLower s
  if t ∈ SUFFIXES then Except.ok t else Except.error 2

/-- Action trace of `setup_py` (src/setup.py lines 72-99): create a
venv, write `main.py`, chmod it executable, write `.gitignore`. -/
def setup_py (d : String) (_day : Nat) : List Act :=
  [.subproc ["python3", "-m", "venv", ".venv"],
   .writeFile (d ++ "/main.py"),
   .chmodExec (d ++ "/main.py"),
   .writeFile (d ++ "/.gitignore")]

/-- Action trace of `setup_go` (src/setup.py lines 102-138). -/
def setup_go (d : String) (day : Nat) : List Act :=
  [.subproc ["go", "mod", "init", "day" ++ pyFormat02d day],
   .writeFile (d ++ "/main.go"),
   .writeFile (d ++ "/.gitignore")]

/-- Action trace of `setup_js` (src/setup.py lines 141-181): `npm init`,
rewrite `package.json`, install node typings, write `index.<ext>` and
`.gitignore`. -/
def setup_js (d : String) (_day : Nat) (ext : String) : List Act :=
  [.subproc ["npm", "init", "-y"],
   .writeFile (d ++ "/package.json"),
   .subproc ["npm", "install", "--save-dev", "@types/node"],
   .writeFile (d ++ "/index." ++ ext),
   .writeFile (d ++ "/.gitignore")]

/-- Action trace of `setup_ts` (src/setup.py lines 184-207): `setup_js`
with extension `ts`, then rewrite `package.json`, install typescript,
`npx tsc --init`, and overwrite `.gitignore`. -/
def setup_ts (d : String) (day : Nat) : List Act :=
  setup_js d day "ts"
    ++ [.writeFile (d ++ "/package.json"),
        .subproc ["npm", "install", "--save-dev", "typescript"],
        .subproc ["npx", "tsc", "--init"],
        .writeFile (d ++ "/.gitignore")]

/-- Action trace of `setup_rs` (src/setup.py lines 210-245). -/
def setup_rs (d : String) (day : Nat) : List Act :=
  [.subproc ["cargo", "init", "--name", "day" ++ pyFormat02d day, "--bin", "--vcs", "none"],
   .writeFile (d ++ "/.gitignore"),
   .writeFile (d ++ "/src/main.rs")]

/-- The `SETUPS` dispatch table (src/setup.py lines 248-254). -/
def SETUPS : List (String × (String → Nat → List Act)) :=
  [("go", setup_go), ("py", setup_py), ("js", fun d day => setup_js d day "js"),
   ("ts", setup_ts), ("rs", setup_rs)]

/-- The attempt directory path `day{day:02d}/{lang}-{user}-day{day:02d}`
(src/setup.py line 261). -/
def attemptPath (day : Nat) (lang user : String) : String :=
  "day" ++ pyFormat02d day ++ "/" ++ lang ++ "-" ++ user ++ "-day" ++ pyFormat02d day

/-- The scaffolder's `__main__` block after argument parsing
(src/setup.py lines 259-267).  `dirExists` is the result of
`p.is_dir()`. -/
def setupMain (dirExists : Bool) (day : Nat) (lang user : String) : List Act :=
  let p := attemptPath day lang user
  if dirExists then
    [.stderr "You\x27ve already started on that!", .exitCode 1]
  else
    Act.mkdirP p :: ((getA SETUPS lang).getD (fun _ _ => [])) p day ++ [.subproc ["code", p]]

/-! ## Bench-runner (`run.py`) -/

/-- A single time sample: elapsed nanoseconds for part 1 and part 2
(src/run.py line 21). -/
abbrev Sample := Int × Int

/-- `args.warmup_rounds = max(args.warmup_rounds, 0)` (src/run.py
line 68). -/
def normWarmup (w : Int) : Nat := (max w 0).toNat

/-- `args.num_rounds = max(args.num_rounds, 1)` (src/run.py line 67). -/
def normNumRounds (n : Int) : Nat := (max n 1).toNat

/-- Sample collection for one attempt (src/run.py lines 246-248): the
runner is invoked `w` times with the results discarded, then `n` times
with the results retained.  The runner is modelled as a function of its
invocation count, so the retained samples are those at invocation
indices `w, w+1, ..., w+n-1`. -/
def warmupThenCollect (runner : Nat → Sample) (w n : Nat) : List Sample :=
  (List.range n).map fun j => runner (w + j)

/-- Exact rational arithmetic mean, modelling `statistics.mean`
(src/run.py line 11; Python computes it exactly over rationals before a
final float conversion). -/
def listMean (xs : List Int) : ℚ :=
  (xs.sum : ℚ) / (xs.length : ℚ)

/-- Python `int()` applied to a rational value: truncation toward
zero. -/
def pyInt (q : ℚ) : Int :=
  Int.tdiv q.num q.den

/-- The part-1 value computed by `summarize` for one user's sample list:
`p1 = int(mean(p[0] for p in parts))` (src/run.py line 210).  The line
printed then shows `p1 / 1000000` ms. -/
def summaryP1 (parts : List Sample) : Int :=
  pyInt (listMean (parts.map Prod.fst))

/-- The part-2 value computed by `summarize` for one user's sample list
(src/run.py line 211). -/
def summaryP2 (parts : List Sample) : Int :=
  pyInt (listMean (parts.map Prod.snd))

/-- `c` counts as `\w` for `ENTRY_PAT` (ASCII model of the regex class:
letters, digits, underscore). -/
def isWordChar (c : Char) : Bool := c.isAlphanum || c == '_'

/-- Split a character list on a separator character (the semantics of
`str.split` on a single-character separator: `splitOnChar c l` always
returns one more group than there are occurrences of `c`). -/
def splitOnChar (sep : Char) : List Char → List (List Char)
  | [] => [[]]
  | c :: rest =>
    if c == sep then
      [] :: splitOnChar sep rest
    else
      match splitOnChar sep rest with
      | [] => [[c]]
      | g :: gs => (c :: g) :: gs

/-- `ENTRY_PAT.fullmatch` (src/run.py line 18, pattern
`^(\w+)-(\w+)-day\d+$`), returning the two captured groups.  Since `\w`
and `\d` never match `-`, a full match forces exactly two hyphens, so
the match is equivalent to the string splitting on `-` into exactly
three pieces of the required shapes. -/
def entryMatch (s : String) : Option (String × String) :=
  match splitOnChar '-' s.data with
  | [g1, g2, g3] =>
    if !g1.isEmpty && g1.all isWordChar && !g2.isEmpty && g2.all isWordChar
        && (g3.take 3 == ['d', 'a', 'y'])
        && !((g3.drop 3).isEmpty) && (g3.drop 3).all Char.isDigit
    then some (String.mk g1, String.mk g2)
    else none
  | _ => none

/-- `times[lang][user] = samples` on the nested dictionaries of the
bench-runner, including the `if lang not in times: times[lang] = {}`
initialization (src/run.py lines 244-248). -/
def setTimes (times : List (String × List (String × List Sample)))
    (lang user : String) (samples : List Sample) :
    List (String × List (String × List Sample)) :=
  setA times lang (setA ((getA times lang).getD []) user samples)

/-- State of the bench-runner's `__main__` block: the action trace so
far, the `times` mapping, and the exit code if `sys.exit` ran. -/
structure RunSt where
  trace : List Act
  times : List (String × List (String × List Sample))
  exited : Option Nat
deriving DecidableEq

/-- The per-entry loop of the bench-runner (src/run.py lines 224-248),
processing the entries of the day directory in order; `i` is the index
of the next entry.  A name that fails `ENTRY_PAT` prints to stderr and
exits with code 1 (ending the whole loop); a matching name whose
language tag is unknown prints a skip message and continues; otherwise
the per-language runner is invoked `w + n` times (recorded as
`runnerInvoke i` actions, abstracting the subprocesses each runner
spawns) and the retained samples are stored.  `sampler e j` is the
sample produced by invocation `j` of the runner on entry `e`. -/
def runFrom (sampler : String → Nat → Sample) (w n : Nat) :
    Nat → List String → RunSt → RunSt
  | _, [], st => st
  | i, e :: rest, st =>
    match entryMatch e with
    | none =>
      { st with
          trace := st.trace ++ [Act.stderr ("Invalid entry \x27" ++ e ++ "\x27"), Act.exitCode 1],
          exited := some 1 }
    | some (lang, user) =>
      if lang ∈ SUFFIXES then
        runFrom sampler w n (i + 1) rest
          { st with
              trace := st.trace ++ List.replicate (w + n) (Act.runnerInvoke i),
              times := setTimes st.times lang user (warmupThenCollect (sampler e) w n) }
      else
        runFrom sampler w n (i + 1) rest
          { st with
              trace := st.trace
                ++ [Act.stderr ("Unknown language \x27" ++ lang ++ "\x27; skipping")] }

/-- The bench-runner's `__main__` block after argument parsing
(src/run.py lines 215-251): if the day directory is missing, print to
stderr and exit 1; otherwise call `fetch(args.day)`, then process each
entry.  (The final stdout summary lines are not part of the trace;
their numeric content is `summaryP1`/`summaryP2` of the stored
samples.) -/
def benchMain (dayExists : Bool) (day : Nat) (entries : List String)
    (sampler : String → Nat → Sample) (w n : Int) : RunSt :=
  if dayExists then
    runFrom sampler (normWarmup w) (normNumRounds n) 0 entries
      { trace := [Act.fetchCall day], times := [], exited := none }
  else
    { trace := [Act.stderr ("There are no attempts for day " ++ toString day), Act.exitCode 1],
      times := [], exited := some 1 }

/-! ## Theorems -/

/-- C1: claimed: the boilerplate for every language, run with "1",
prints exactly one "Part 1" line and invokes only the first stub; with
"2" only the second; with no argument both in order.  The code violates
this: the generated Python program invokes both stubs unconditionally
(the stub calls sit outside the `if` bodies), and the generated
JavaScript/TypeScript program tests `process.argv[1]` — the script path
under node — so it never prints a line nor invokes a stub.  Go and Rust
behave as claimed.  This theorem evaluates each generated program at the
relevant inputs. -/
theorem c1_generated_boilerplate_bug :
    pyGenMain ["main.py", "2"] = [.callPart 1, .printLine "Part 2", .callPart 2] ∧
    pyGenMain ["main.py", "1"] = [.printLine "Part 1", .callPart 1, .callPart 2] ∧
    jsGenMain ["node", "index.js", "1"] = [] ∧
    jsGenMain ["node", "index.js", "2"] = [] ∧
    jsGenMain ["node", "index.js"] = [] ∧
    goGenMain ["day01", "1"] = [.printLine "Part 1", .callPart 1] ∧
    goGenMain ["day01", "2"] = [.printLine "Part 2", .callPart 2] ∧
    goGenMain ["day01"]
      = [.printLine "Part 1", .callPart 1, .printLine "Part 2", .callPart 2] ∧
    rsGenMain ["day01", "1"] = [.printLine "Part 1", .callPart 1] ∧
    rsGenMain ["day01", "2"] = [.printLine "Part 2", .callPart 2] ∧
    rsGenMain ["day01"]
      = [.printLine "Part 1", .callPart 1, .printLine "Part 2", .callPart 2] := by
  decide

/-- C5: calling `fetch` with no cookie argument when `auth.txt` does not
exist raises `FileNotFoundError` before any action: the `inputs`
directory is not created and curl is never run. -/
theorem c5_missing_auth_fails_before_any_action (day : Nat) (t h : Bool) :
    (fetch day none none t h).err = some FetchErr.fileNotFound ∧
    (fetch day none none t h).actions = [] :=
  ⟨rfl, rfl⟩

/-- The curl invocation built by `fetch` carries neither `--fail` nor
`-f`. -/
theorem curlArgv_no_fail_flag (day : Nat) (c : String) :
    "--fail" ∉ curlArgv day c ∧ "-f" ∉ curlArgv day c := by
  have h34 : ("https://adventofcode.com/2021/day/" : String).length = 34 := rfl
  have h6 : ("/input" : String).length = 6 := rfl
  have h16 : ("Cookie: session=" : String).length = 16 := rfl
  have h10 : ("inputs/day" : String).length = 10 := rfl
  have h4 : (".txt" : String).length = 4 := rfl
  have hu : ∀ s : String, s.length < 40 →
      s ≠ "https://adventofcode.com/2021/day/" ++ toString day ++ "/input" := by
    intro s hs he
    have hl := congrArg String.length he
    rw [String.length_append, String.length_append, h34, h6] at hl
    omega
  have hc : ∀ s : String, s.length < 16 → s ≠ "Cookie: session=" ++ c := by
    intro s hs he
    have hl := congrArg String.length he
    rw [String.length_append, h16] at hl
    omega
  have hp : ∀ s : String, s.length < 14 → s ≠ inputPath day := by
    intro s hs he
    have hl := congrArg String.length he
    rw [inputPath, String.length_append, String.length_append, h10, h4] at hl
    omega
  constructor <;> intro hmem <;>
    simp only [curlArgv, List.mem_cons, List.not_mem_nil, or_false] at hmem <;>
    rcases hmem with h | h | h | h | h | h | h
  · exact absurd h (by decide)
  · exact hu _ (by decide) h
  · exact absurd h (by decide)
  · exact hc _ (by decide) h
  · exact absurd h (by decide)
  · exact hp _ (by decide) h
  · exact absurd h (by decide)
  · exact absurd h (by decide)
  · exact hu _ (by decide) h
  · exact absurd h (by decide)
  · exact hc _ (by decide) h
  · exact absurd h (by decide)
  · exact hp _ (by decide) h
  · exact absurd h (by decide)

/-- C6 counterexample: with a working transport and a non-success HTTP
response (day 1, cookie "c"), `fetch` raises nothing and the response
body is written to the output file — the process does not abort. -/
theorem c6_http_error_written_silently :
    (fetch 1 (some "c") none true false).err = none ∧
    Act.writeFile (inputPath 1) ∈ (fetch 1 (some "c") none true false).actions := by
  decide

/-- C6 amended: a curl process failure (nonzero curl exit, e.g. a
transport failure) is surfaced as a fatal `CalledProcessError` through
`check=True`; but a non-success HTTP *response* is not detected, because
curl is invoked without `--fail`/`-f`: curl exits 0 and the response
body is silently written to the output file. -/
theorem c6_failure_policy (day : Nat) (c : String) :
    (fetch day (some c) none false true).err = some (FetchErr.calledProcessError 6) ∧
    (fetch day (some c) none false false).err = some (FetchErr.calledProcessError 6) ∧
    (fetch day (some c) none true false).err = none ∧
    Act.writeFile (inputPath day) ∈ (fetch day (some c) none true false).actions ∧
    "--fail" ∉ curlArgv day c ∧ "-f" ∉ curlArgv day c := by
  obtain ⟨hf, hff⟩ := curlArgv_no_fail_flag day c
  refine ⟨?_, ?_, ?_, ?_, hf, hff⟩
  · simp [fetch, fetchWith, curlExit]
  · simp [fetch, fetchWith, curlExit]
  · simp [fetch, fetchWith, curlExit, hf, hff]
  · simp [fetch, fetchWith, curlWritesOutput, hf, hff]

/-- C8: for every valid day `N` the fetcher creates the `inputs`
directory and has curl write the downloaded input to
`inputs/day<NN>.txt`, with `<NN>` the decimal form of `N` zero-padded to
two digits. -/
theorem c8_input_path (day : Nat) (c : String) (h1 : 1 ≤ day) (h2 : day ≤ 25) :
    (fetch day (some c) none true true).actions
      = [Act.mkdirP "inputs", Act.subproc (curlArgv day c), Act.writeFile (inputPath day)] ∧
    inputPath day = "inputs/day" ++ pyFormat02d day ++ ".txt" ∧
    (pyFormat02d day).length = 2 ∧
    parseDecimal (pyFormat02d day) = some day := by
  refine ⟨?_, rfl, ?_, ?_⟩
  · simp [fetch, fetchWith, curlWritesOutput]
  · interval_cases day <;> decide
  · interval_cases day <;> decide

/-- Witness for `c8_input_path` at day 7. -/
theorem c8_input_path_witness :
    (1 ≤ 7 ∧ 7 ≤ 25) ∧
    ((fetch 7 (some "tok") none true true).actions
        = [Act.mkdirP "inputs", Act.subproc (curlArgv 7 "tok"), Act.writeFile (inputPath 7)] ∧
      inputPath 7 = "inputs/day" ++ pyFormat02d 7 ++ ".txt" ∧
      (pyFormat02d 7).length = 2 ∧
      parseDecimal (pyFormat02d 7) = some 7) :=
  ⟨⟨by decide, by decide⟩, c8_input_path 7 "tok" (by decide) (by decide)⟩

/-- C9 counterexample: the long-form name "Rust" is rejected by the
scaffolder's argument parser with an argparse usage error (exit code 2),
while the suffix "rs" is accepted — contradicting the claim that
long-form names select the corresponding setup routine with other
values failing with exit code 1. -/
theorem c9_long_form_rejected :
    parseLang "Rust" = Except.error 2 ∧
    parseLang "Python" = Except.error 2 ∧
    parseLang "rs" = Except.ok "rs" := by
  decide

/-- C9 amended: the language argument accepts exactly the values whose
lowercase form is one of the five short suffixes (the value is
lowercased before the `choices` check), each selecting the
corresponding setup routine in `SETUPS`; the long-form names Rust,
Python, JavaScript and TypeScript are rejected — only "Go" among the
long-form names is accepted, and only because its lowercase form
coincides with its suffix.  Rejected values are argparse usage errors
with exit code 2, not 1. -/
theorem c9_lang_argument (s : String) :
    (∀ l ∈ SUFFIXES, parseLang l = Except.ok l ∧ (getA SETUPS l).isSome = true) ∧
    (∀ nm sfx, (nm, sfx) ∈ LANG_SUFFIXES → nm ≠ "Go" → parseLang nm = Except.error 2) ∧
    parseLang "Go" = Except.ok "go" ∧
    (pyLower s ∉ SUFFIXES → parseLang s = Except.error 2) ∧
    (pyLower s ∈ SUFFIXES → parseLang s = Except.ok (pyLower s)) ∧
    parseLang "GO" = Except.ok "go" := by
  refine ⟨?_, ?_, by decide, ?_, ?_, by decide⟩
  · intro l hl
    fin_cases hl <;> exact ⟨by decide, by decide⟩
  · intro nm sfx hmem hnm
    fin_cases hmem
    · decide
    · decide
    · exact absurd rfl hnm
    · decide
    · decide
  · intro hs
    simp [parseLang, hs]
  · intro hs
    simp [parseLang, hs]

/-- Witness for `c9_lang_argument`: "Rust" lowercases to "rust", which
is not a suffix, so parsing fails with exit code 2. -/
theorem c9_lang_argument_witness :
    pyLower "Rust" ∉ SUFFIXES ∧ parseLang "Rust" = Except.error 2 :=
  ⟨by decide, (c9_lang_argument "Rust").2.2.2.1 (by decide)⟩

/-- C4: when the attempt directory already exists, the scaffolder prints
to stderr and exits with code 1, and its trace contains no directory
creation, no file write, no chmod, and no subprocess — existing files
are untouched. -/
theorem c4_existing_attempt_aborts (day : Nat) (lang user : String) :
    setupMain true day lang user
      = [Act.stderr "You\x27ve already started on that!", Act.exitCode 1] ∧
    ∀ a ∈ setupMain true day lang user,
      (∀ p, a ≠ Act.mkdirP p) ∧ (∀ p, a ≠ Act.writeFile p) ∧
      (∀ v, a ≠ Act.subproc v) ∧ (∀ p, a ≠ Act.chmodExec p) := by
  refine ⟨rfl, ?_⟩
  intro a ha
  simp only [setupMain, if_pos, List.mem_cons, List.not_mem_nil, or_false] at ha
  rcases ha with rfl | rfl <;>
    exact ⟨fun p => by simp, fun p => by simp, fun v => by simp, fun p => by simp⟩

/-- Witness for `c4_existing_attempt_aborts` at (3, "py", "ahr"). -/
theorem c4_existing_attempt_aborts_witness :
    setupMain true 3 "py" "ahr"
      = [Act.stderr "You\x27ve already started on that!", Act.exitCode 1] :=
  (c4_existing_attempt_aborts 3 "py" "ahr").1

/-- C2 counterexample: benchmarking with `warmup_rounds = 0` and
`num_rounds = 2` a runner whose part-1 times are 0 ns and 1 ns, the
summarized part-1 value is `int(mean) = 0`, which differs from the
arithmetic mean 1/2 of the retained samples — the printed value is the
truncated mean, not the mean. -/
theorem c2_truncated_mean_cex :
    ((summaryP1 (warmupThenCollect (fun i => ((i : Int), 0)) 0 2) : Int) : ℚ)
      ≠ listMean ((warmupThenCollect (fun i => ((i : Int), 0)) 0 2).map Prod.fst) := by
  have hl : warmupThenCollect (fun i => ((i : Int), 0)) 0 2 = [(0, 0), (1, 0)] := by decide
  rw [hl]
  have hm : listMean ([((0 : Int), (0 : Int)), (1, 0)].map Prod.fst) = 1 / 2 := by
    norm_num [listMean]
  rw [hm]
  have hs : summaryP1 [((0 : Int), (0 : Int)), (1, 0)] = 0 := by
    have : listMean ([((0 : Int), (0 : Int)), (1, 0)].map Prod.fst) = 1 / 2 := hm
    rw [summaryP1, this]
    have hnum : ((1 : ℚ) / 2).num = 1 := by norm_num
    have hden : ((1 : ℚ) / 2).den = 2 := by norm_num
    rw [pyInt, hnum, hden]
    decide
  rw [hs]
  norm_num

/-- C2 amended: for every attempt, the per-part value printed in the
summary is the integer truncation (Python `int()`) of the arithmetic
mean of exactly the `num_rounds` retained samples of that part; the
`warmup_rounds` warm-up samples never contribute (replacing the samples
at warm-up indices changes nothing), and the stored sample list for the
attempt's (language, user) pair is exactly the retained list. -/
theorem c2_mean_of_retained (sampler : Nat → Sample) (w n : Int) :
    (warmupThenCollect sampler (normWarmup w) (normNumRounds n)).length = normNumRounds n ∧
    0 < normNumRounds n ∧
    summaryP1 (warmupThenCollect sampler (normWarmup w) (normNumRounds n))
      = pyInt (listMean
          ((warmupThenCollect sampler (normWarmup w) (normNumRounds n)).map Prod.fst)) ∧
    summaryP2 (warmupThenCollect sampler (normWarmup w) (normNumRounds n))
      = pyInt (listMean
          ((warmupThenCollect sampler (normWarmup w) (normNumRounds n)).map Prod.snd)) ∧
    (∀ g : Nat → Sample,
      warmupThenCollect (fun i => if i < normWarmup w then g i else sampler i)
          (normWarmup w) (normNumRounds n)
        = warmupThenCollect sampler (normWarmup w) (normNumRounds n)) ∧
    (benchMain true 1 ["py-ahr-day01"] (fun _ => sampler) w n).times
      = [("py", [("ahr", warmupThenCollect sampler (normWarmup w) (normNumRounds n))])] := by
  refine ⟨by simp [warmupThenCollect], ?_, rfl, rfl, ?_, ?_⟩
  · simp only [normNumRounds]
    omega
  · intro g
    simp only [warmupThenCollect]
    apply List.map_congr_left
    intro j _
    simp
  · have hem : entryMatch "py-ahr-day01" = some ("py", "ahr") := by decide
    have hsuf : ("py" : String) ∈ SUFFIXES := by decide
    simp [benchMain, runFrom, hem, hsuf, setTimes, setA, getA]

/-- The loop only ever appends to the trace. -/
theorem runFrom_trace_append (sampler : String → Nat → Sample) (w n : Nat)
    (entries : List String) (i : Nat) (st : RunSt) :
    ∃ t, (runFrom sampler w n i entries st).trace = st.trace ++ t := by
  induction entries generalizing i st with
  | nil => exact ⟨[], by simp [runFrom]⟩
  | cons a rest ih =>
    simp only [runFrom]
    split
    · exact ⟨_, rfl⟩
    · next lang user heq =>
      split
      · obtain ⟨t, ht⟩ := ih (i + 1)
          { st with
              trace := st.trace ++ List.replicate (w + n) (Act.runnerInvoke i),
              times := setTimes st.times lang user (warmupThenCollect (sampler a) w n) }
        refine ⟨List.replicate (w + n) (Act.runnerInvoke i) ++ t, ?_⟩
        rw [ht]
        simp
      · obtain ⟨t, ht⟩ := ih (i + 1)
          { st with
              trace := st.trace
                ++ [Act.stderr ("Unknown language \x27" ++ lang ++ "\x27; skipping")] }
        refine ⟨Act.stderr ("Unknown language \x27" ++ lang ++ "\x27; skipping") :: t, ?_⟩
        rw [ht]
        simp

/-- If some entry fails `ENTRY_PAT`, the loop ends in `sys.exit(1)`. -/
theorem runFrom_exited_of_bad (sampler : String → Nat → Sample) (w n : Nat)
    (entries : List String) (k i : Nat) (st : RunSt) (e : String)
    (hk : entries.get? k = some e) (hbad : entryMatch e = none) :
    (runFrom sampler w n i entries st).exited = some 1 := by
  induction entries generalizing k i st with
  | nil => simp at hk
  | cons a rest ih =>
    simp only [runFrom]
    split
    · rfl
    · next lang user heq =>
      cases k with
      | zero =>
        injection hk with h
        rw [h, hbad] at heq
        exact Option.noConfusion heq
      | succ k' =>
        have hk' : rest.get? k' = some e := by simpa using hk
        split
        · exact ih k' (i + 1) _ hk'
        · exact ih k' (i + 1) _ hk'

/-- If some entry fails `ENTRY_PAT`, an "Invalid entry" message for a
failing entry is printed to stderr. -/
theorem runFrom_bad_msg (sampler : String → Nat → Sample) (w n : Nat)
    (entries : List String) (k i : Nat) (st : RunSt) (e : String)
    (hk : entries.get? k = some e) (hbad : entryMatch e = none) :
    ∃ e2, entryMatch e2 = none ∧
      Act.stderr ("Invalid entry \x27" ++ e2 ++ "\x27")
        ∈ (runFrom sampler w n i entries st).trace := by
  induction entries generalizing k i st with
  | nil => simp at hk
  | cons a rest ih =>
    simp only [runFrom]
    split
    · next heq => exact ⟨a, heq, by simp⟩
    · next lang user heq =>
      cases k with
      | zero =>
        injection hk with h
        rw [h, hbad] at heq
        exact Option.noConfusion heq
      | succ k' =>
        have hk' : rest.get? k' = some e := by simpa using hk
        split
        · exact ih k' (i + 1) _ hk'
        · exact ih k' (i + 1) _ hk'

/-- If the entry at position `k` fails `ENTRY_PAT`, any runner
invocation in the loop's trace either was already in the incoming trace
or belongs to an entry strictly before position `k`. -/
theorem runFrom_invoke_lt_of_bad (sampler : String → Nat → Sample) (w n : Nat)
    (entries : List String) (k i : Nat) (st : RunSt) (e : String) (j : Nat)
    (hk : entries.get? k = some e) (hbad : entryMatch e = none)
    (hmem : Act.runnerInvoke j ∈ (runFrom sampler w n i entries st).trace) :
    Act.runnerInvoke j ∈ st.trace ∨ j < i + k := by
  induction entries generalizing k i st with
  | nil => simp at hk
  | cons a rest ih =>
    simp only [runFrom] at hmem
    split at hmem
    · left
      simpa using hmem
    · next lang user heq =>
      cases k with
      | zero =>
        injection hk with h
        rw [h, hbad] at heq
        exact Option.noConfusion heq
      | succ k' =>
        have hk' : rest.get? k' = some e := by simpa using hk
        split at hmem
        · rcases ih k' (i + 1) _ hk' hmem with hin | hlt
          · simp only [List.mem_append, List.mem_replicate] at hin
            rcases hin with hin | ⟨-, hin⟩
            · exact Or.inl hin
            · injection hin with h
              omega
          · right
            omega
        · rcases ih k' (i + 1) _ hk' hmem with hin | hlt
          · simp only [List.mem_append, List.mem_cons, List.not_mem_nil, or_false] at hin
            rcases hin with hin | hin
            · exact Or.inl hin
            · exact absurd hin (by simp)
          · right
            omega

/-- If every entry matches `ENTRY_PAT`, the loop never calls
`sys.exit`. -/
theorem runFrom_exited_none (sampler : String → Nat → Sample) (w n : Nat)
    (entries : List String) (i : Nat) (st : RunSt)
    (hall : ∀ x ∈ entries, (entryMatch x).isSome) (hst : st.exited = none) :
    (runFrom sampler w n i entries st).exited = none := by
  induction entries generalizing i st with
  | nil => simpa [runFrom] using hst
  | cons a rest ih =>
    simp only [runFrom]
    split
    · next heq =>
      have := hall a (by simp)
      rw [heq] at this
      simp at this
    · split
      · exact ih (i + 1) _ (fun x hx => hall x (by simp [hx])) hst
      · exact ih (i + 1) _ (fun x hx => hall x (by simp [hx])) hst

/-- If every entry matches the pattern and the entry at position `k`
has an unknown language tag, the skip message for that tag is printed
to stderr. -/
theorem runFrom_skip_msg (sampler : String → Nat → Sample) (w n : Nat)
    (entries : List String) (k i : Nat) (st : RunSt) (e lang user : String)
    (hall : ∀ x ∈ entries, (entryMatch x).isSome)
    (hk : entries.get? k = some e) (hm : entryMatch e = some (lang, user))
    (hl : lang ∉ SUFFIXES) :
    Act.stderr ("Unknown language \x27" ++ lang ++ "\x27; skipping")
      ∈ (runFrom sampler w n i entries st).trace := by
  induction entries generalizing k i st with
  | nil => simp at hk
  | cons a rest ih =>
    simp only [runFrom]
    split
    · next heq =>
      have := hall a (by simp)
      rw [heq] at this
      simp at this
    · next lang' user' heq =>
      cases k with
      | zero =>
        injection hk with h
        subst h
        rw [hm] at heq
        injection heq with h2
        injection h2 with hl2 hu2
        subst hl2
        subst hu2
        rw [if_neg hl]
        obtain ⟨t, ht⟩ := runFrom_trace_append sampler w n rest (i + 1)
          { st with
              trace := st.trace
                ++ [Act.stderr ("Unknown language \x27" ++ lang ++ "\x27; skipping")] }
        rw [ht]
        simp
      | succ k' =>
        have hk' : rest.get? k' = some e := by simpa using hk
        split
        · exact ih k' (i + 1) _ (fun x hx => hall x (by simp [hx])) hk'
        · exact ih k' (i + 1) _ (fun x hx => hall x (by simp [hx])) hk'

/-- Every runner invocation in the loop's trace either was in the
incoming trace or belongs to an entry that matches the pattern with a
known language tag. -/
theorem runFrom_invoke_mem (sampler : String → Nat → Sample) (w n : Nat)
    (entries : List String) (i : Nat) (st : RunSt) (j : Nat)
    (hmem : Act.runnerInvoke j ∈ (runFrom sampler w n i entries st).trace) :
    Act.runnerInvoke j ∈ st.trace ∨
    ∃ k e l u, entries.get? k = some e ∧ entryMatch e = some (l, u) ∧
      l ∈ SUFFIXES ∧ j = i + k := by
  induction entries generalizing i st with
  | nil =>
    left
    simpa [runFrom] using hmem
  | cons a rest ih =>
    simp only [runFrom] at hmem
    split at hmem
    · left
      simpa using hmem
    · next l u heq =>
      split at hmem
      · next hsuf =>
        rcases ih (i + 1) _ hmem with hin | ⟨k, e, l', u', hk, hme, hsuf', hj⟩
        · simp only [List.mem_append, List.mem_replicate] at hin
          rcases hin with hin | ⟨-, hin⟩
          · exact Or.inl hin
          · injection hin with h
            exact Or.inr ⟨0, a, l, u, by simp, heq, hsuf, by omega⟩
        · exact Or.inr ⟨k + 1, e, l', u', by simpa using hk, hme, hsuf', by omega⟩
      · rcases ih (i + 1) _ hmem with hin | ⟨k, e, l', u', hk, hme, hsuf', hj⟩
        · simp only [List.mem_append, List.mem_cons, List.not_mem_nil, or_false] at hin
          rcases hin with hin | hin
          · exact Or.inl hin
          · exact absurd hin (by simp)
        · exact Or.inr ⟨k + 1, e, l', u', by simpa using hk, hme, hsuf', by omega⟩

/-- Updating one key of an association list leaves lookups of other
keys unchanged. -/
theorem getA_setA_ne {α : Type} (m : List (String × α)) (k k' : String) (v : α)
    (h : k' ≠ k) : getA (setA m k' v) k = getA m k := by
  induction m with
  | nil => simp [setA, getA, h]
  | cons p r ih =>
    obtain ⟨k₁, v₁⟩ := p
    simp only [setA]
    split
    · next heq =>
      subst heq
      simp [getA, h]
    · next hne =>
      by_cases hk : k₁ = k
      · simp [getA, hk]
      · simp [getA, hk, ih]

/-- A language tag outside `SUFFIXES` never acquires a key in `times`. -/
theorem runFrom_times_preserve (sampler : String → Nat → Sample) (w n : Nat)
    (entries : List String) (i : Nat) (st : RunSt) (lang : String)
    (hl : lang ∉ SUFFIXES) (hst : getA st.times lang = none) :
    getA (runFrom sampler w n i entries st).times lang = none := by
  induction entries generalizing i st with
  | nil => simpa [runFrom] using hst
  | cons a rest ih =>
    simp only [runFrom]
    split
    · simpa using hst
    · next l u heq =>
      split
      · next hsuf =>
        refine ih (i + 1) _ ?_
        have hne : l ≠ lang := fun h => hl (h ▸ hsuf)
        show getA (setTimes st.times l u _) lang = none
        rw [setTimes, getA_setA_ne _ _ _ _ hne]
        exact hst
      · exact ih (i + 1) _ hst

/-- C3: if any entry of the day directory fails the
`<language>-<user>-day<NN>` pattern, the bench-runner prints an error
to stderr and exits with code 1, and no per-language runner is invoked
for that entry or any later entry (runner invocations can only belong
to entries strictly before the failing position). -/
theorem c3_invalid_entry_fatal (day : Nat) (entries : List String)
    (sampler : String → Nat → Sample) (w n : Int) (k : Nat) (e : String)
    (hk : entries.get? k = some e) (hbad : entryMatch e = none) :
    (benchMain true day entries sampler w n).exited = some 1 ∧
    (∃ e2, entryMatch e2 = none ∧
      Act.stderr ("Invalid entry \x27" ++ e2 ++ "\x27")
        ∈ (benchMain true day entries sampler w n).trace) ∧
    ∀ j, k ≤ j → Act.runnerInvoke j ∉ (benchMain true day entries sampler w n).trace := by
  have hbm : benchMain true day entries sampler w n
      = runFrom sampler (normWarmup w) (normNumRounds n) 0 entries
          { trace := [Act.fetchCall day], times := [], exited := none } := rfl
  refine ⟨?_, ?_, ?_⟩
  · rw [hbm]
    exact runFrom_exited_of_bad sampler _ _ entries k 0 _ e hk hbad
  · rw [hbm]
    exact runFrom_bad_msg sampler _ _ entries k 0 _ e hk hbad
  · intro j hj hmem
    rw [hbm] at hmem
    rcases runFrom_invoke_lt_of_bad sampler _ _ entries k 0 _ e j hk hbad hmem with hin | hlt
    · simp at hin
    · omega

/-- Witness for `c3_invalid_entry_fatal`: the single entry "nope" fails
the pattern; the run exits with code 1 and invokes no runner. -/
theorem c3_invalid_entry_fatal_witness :
    (["nope"].get? 0 = some "nope" ∧ entryMatch "nope" = none) ∧
    ((benchMain true 1 ["nope"] (fun _ _ => ((0 : Int), (0 : Int))) 0 1).exited = some 1 ∧
      (∃ e2, entryMatch e2 = none ∧
        Act.stderr ("Invalid entry \x27" ++ e2 ++ "\x27")
          ∈ (benchMain true 1 ["nope"] (fun _ _ => ((0 : Int), (0 : Int))) 0 1).trace) ∧
      ∀ j, 0 ≤ j →
        Act.runnerInvoke j
          ∉ (benchMain true 1 ["nope"] (fun _ _ => ((0 : Int), (0 : Int))) 0 1).trace) :=
  ⟨⟨by decide, by decide⟩,
    c3_invalid_entry_fatal 1 ["nope"] (fun _ _ => ((0 : Int), (0 : Int))) 0 1 0 "nope"
      (by decide) (by decide)⟩

/-- C7 counterexample: a complete scaffolder run for day 7 ("py",
"ahr") — in both the fresh and the already-exists case — contains no
call to the fetcher's fetch routine, contradicting the claim that the
scaffolder fetches the day's input. -/
theorem c7_scaffolder_never_fetches :
    (setupMain false 7 "py" "ahr").all (fun a => !isFetchAct a) = true ∧
    (setupMain true 7 "py" "ahr").all (fun a => !isFetchAct a) = true := by
  decide

/-- No per-language setup routine performs a fetch call. -/
theorem setups_no_fetch (lang p : String) (day d : Nat) :
    Act.fetchCall d ∉ ((getA SETUPS lang).getD (fun _ _ => [])) p day := by
  intro hmem
  simp only [SETUPS, getA] at hmem
  split_ifs at hmem <;>
    simp [setup_go, setup_py, setup_js, setup_ts, setup_rs, Option.getD] at hmem

/-- C7 amended: the bench-runner calls the fetcher's fetch routine for
the requested day first, before any entry is examined or any runner is
invoked (its trace begins with the fetch call); the scaffolder never
calls the fetch routine at all. -/
theorem c7_fetch_policy (day : Nat) (entries : List String)
    (sampler : String → Nat → Sample) (w n : Int) :
    (∃ t, (benchMain true day entries sampler w n).trace = Act.fetchCall day :: t) ∧
    ∀ (dirExists : Bool) (day2 d : Nat) (lang user : String),
      Act.fetchCall d ∉ setupMain dirExists day2 lang user := by
  constructor
  · obtain ⟨t, ht⟩ := runFrom_trace_append sampler (normWarmup w) (normNumRounds n)
      entries 0 { trace := [Act.fetchCall day], times := [], exited := none }
    refine ⟨t, ?_⟩
    show (runFrom sampler (normWarmup w) (normNumRounds n) 0 entries
        { trace := [Act.fetchCall day], times := [], exited := none }).trace
      = Act.fetchCall day :: t
    rw [ht]
    simp
  · intro dirExists day2 d lang user hmem
    cases dirExists
    · rw [show setupMain false day2 lang user
          = Act.mkdirP (attemptPath day2 lang user)
            :: ((getA SETUPS lang).getD (fun _ _ => [])) (attemptPath day2 lang user) day2
            ++ [Act.subproc ["code", attemptPath day2 lang user]] from rfl] at hmem
      rcases List.mem_cons.mp hmem with h | hmem2
      · exact absurd h (by simp)
      · rcases List.mem_append.mp hmem2 with h | h
        · exact setups_no_fetch lang _ day2 d h
        · simp at h
    · simp [setupMain] at hmem

/-- C10: an entry whose name matches the pattern but whose language tag
is not one of the five known suffixes makes the bench-runner print a
skip message to stderr and continue — provided every entry matches the
pattern, the run does not abort — and that entry's runner is never
invoked and its language never acquires samples in `times`. -/
theorem c10_unknown_lang_skipped (day : Nat) (entries : List String)
    (sampler : String → Nat → Sample) (w n : Int)
    (hall : ∀ x ∈ entries, (entryMatch x).isSome)
    (k : Nat) (e lang user : String)
    (hk : entries.get? k = some e) (hm : entryMatch e = some (lang, user))
    (hl : lang ∉ SUFFIXES) :
    (benchMain true day entries sampler w n).exited = none ∧
    Act.stderr ("Unknown language \x27" ++ lang ++ "\x27; skipping")
      ∈ (benchMain true day entries sampler w n).trace ∧
    Act.runnerInvoke k ∉ (benchMain true day entries sampler w n).trace ∧
    getA (benchMain true day entries sampler w n).times lang = none := by
  have hbm : benchMain true day entries sampler w n
      = runFrom sampler (normWarmup w) (normNumRounds n) 0 entries
          { trace := [Act.fetchCall day], times := [], exited := none } := rfl
  refine ⟨?_, ?_, ?_, ?_⟩
  · rw [hbm]
    exact runFrom_exited_none sampler _ _ entries 0 _ hall rfl
  · rw [hbm]
    exact runFrom_skip_msg sampler _ _ entries k 0 _ e lang user hall hk hm hl
  · intro hmem
    rw [hbm] at hmem
    rcases runFrom_invoke_mem sampler _ _ entries 0 _ k hmem
      with hin | ⟨k', e', l', u', hk', hm', hs', hj⟩
    · simp at hin
    · have hkk : k' = k := by omega
      subst hkk
      rw [hk] at hk'
      injection hk' with he
      subst he
      rw [hm] at hm'
      injection hm' with h2
      injection h2 with hl2 hu2
      rw [← hl2] at hs'
      exact hl hs'
  · rw [hbm]
    exact runFrom_times_preserve sampler _ _ entries 0 _ lang hl rfl

/-- Witness for `c10_unknown_lang_skipped`: the entry "zz-ahr-day01"
matches the pattern with unknown tag "zz"; the run finishes without
exiting, prints the skip message, invokes no runner for it, and stores
no samples under "zz". -/
theorem c10_unknown_lang_skipped_witness :
    ((∀ x ∈ ["zz-ahr-day01"], (entryMatch x).isSome) ∧
      ["zz-ahr-day01"].get? 0 = some "zz-ahr-day01" ∧
      entryMatch "zz-ahr-day01" = some ("zz", "ahr") ∧ "zz" ∉ SUFFIXES) ∧
    ((benchMain true 1 ["zz-ahr-day01"] (fun _ _ => ((0 : Int), (0 : Int))) 0 1).exited
        = none ∧
      Act.stderr ("Unknown language \x27" ++ "zz" ++ "\x27; skipping")
        ∈ (benchMain true 1 ["zz-ahr-day01"] (fun _ _ => ((0 : Int), (0 : Int))) 0 1).trace ∧
      Act.runnerInvoke 0
        ∉ (benchMain true 1 ["zz-ahr-day01"] (fun _ _ => ((0 : Int), (0 : Int))) 0 1).trace ∧
      getA (benchMain true 1 ["zz-ahr-day01"]
          (fun _ _ => ((0 : Int), (0 : Int))) 0 1).times "zz" = none) :=
  ⟨⟨by decide, by decide, by decide, by decide⟩,
    c10_unknown_lang_skipped 1 ["zz-ahr-day01"] (fun _ _ => ((0 : Int), (0 : Int))) 0 1
      (by decide) 0 "zz-ahr-day01" "zz" "ahr" (by decide) (by decide) (by decide)⟩

end Aoc
